import Mathlib

/-!
Shallow embedding of the state logic of src/src/App.jsx (JarvisX overlay
front-end): the transcript assembler driven by the two transcription event
listeners, the recording start/stop handler, the AI-query handler, the
click-through toggle handler, and the drag begin/end handlers.

Each asynchronous handler is embedded as a pure function from the pre-state
and the outcome of its single backend call (an Except value standing for the
resolved or rejected invoke promise) to the post-state; the code is
single-threaded and straight-line around each await, so this captures the
net state transition of one handler invocation.
-/

/-- Transcript assembler state: the three pieces of React state and ref used
by the transcription listeners in App.jsx. finalizedTranscript is the list
state, inProgressTranscript the string state, and pending models
speechPauseTimer.current: some t when a scheduled setTimeout callback with
captured payload t is outstanding, none when no callback is outstanding. -/
structure TranscriptState where
  finalized : List String
  inProgress : String
  pending : Option String

deriving instance DecidableEq for TranscriptState

/-- The new_transcription listener (App.jsx lines 51-64): stores the payload
in inProgressTranscript, clears any outstanding timeout and schedules a new
one capturing the payload. -/
def onInterim (s : TranscriptState) (text : String) : TranscriptState :=
  { finalized := s.finalized, inProgress := text, pending := some text }

/-- The final_transcription listener (App.jsx lines 66-74): appends the
payload to finalizedTranscript when it is truthy (non-empty), clears
inProgressTranscript, and clears the timeout. -/
def onFinal (s : TranscriptState) (text : String) : TranscriptState :=
  { finalized := if text ≠ "" then s.finalized ++ [text] else s.finalized,
    inProgress := "", pending := none }

/-- The pause-timeout callback (App.jsx lines 57-63) firing: possible only
when a task is outstanding; it consumes the task, and when the captured text
is truthy it appends that text to finalizedTranscript and clears
inProgressTranscript. The code tests only the captured text, not whether it
still equals the current inProgressTranscript. -/
def debounceFire (s : TranscriptState) : TranscriptState :=
  match s.pending with
  | none => s
  | some t =>
    { finalized := if t ≠ "" then s.finalized ++ [t] else s.finalized,
      inProgress := if t ≠ "" then "" else s.inProgress,
      pending := none }

/-- Transcript effect of the start-recording branch of handleToggleRecording
(App.jsx lines 107-108): both transcript states are cleared. No
clearTimeout is executed on this path, so the timer slot is untouched. -/
def reset (s : TranscriptState) : TranscriptState :=
  { finalized := [], inProgress := "", pending := s.pending }

/-- Transcript effect of the stop-recording branch of handleToggleRecording
(App.jsx lines 128-131): a truthy inProgressTranscript is appended to
finalizedTranscript, then inProgressTranscript is cleared. No clearTimeout
is executed on this path either, so the timer slot is untouched. -/
def stopAndFlush (s : TranscriptState) : TranscriptState :=
  { finalized := if s.inProgress ≠ "" then s.finalized ++ [s.inProgress] else s.finalized,
    inProgress := "", pending := s.pending }

/-- JavaScript Array.prototype.join with separator newline, as used at
App.jsx line 192 and line 165. -/
def joinWithNewline : List String → String
  | [] => ""
  | [a] => a
  | a :: b :: rest => a ++ "\n" ++ joinWithNewline (b :: rest)

/-- The derived display value at App.jsx line 192:
[...finalizedTranscript, inProgressTranscript].join("\n"). -/
def transcript (s : TranscriptState) : String :=
  joinWithNewline (s.finalized ++ [s.inProgress])

/-- Component state touched by the handlers under study: isRecording,
the transcript assembler state, aiResponse, status, clickThrough, the
drag-gesture memo cell prevClickThroughRef.current (referenced by the drag
handlers at App.jsx lines 201, 221, 229, though its declaration is absent
from the source - see the drag theorems), activeTab and widgetOpen. -/
structure AppState where
  isRecording : Bool
  tr : TranscriptState
  aiResponse : String
  status : String
  clickThrough : Bool
  prevClickThrough : Option Bool
  activeTab : String
  widgetOpen : Bool

deriving instance DecidableEq for AppState

/-- handleToggleRecording (App.jsx lines 102-139), with o the outcome of the
awaited backend call (path resolution plus start_live_transcription on the
start branch, stop_live_transcription on the stop branch). Start branch:
status is set to Recording..., transcript state and aiResponse are cleared
before the call; on success isRecording becomes true, on failure status
becomes the error message. Stop branch: on success the remaining
inProgressTranscript is flushed, status becomes Ready. and isRecording
false; on failure only status changes, to the error message. -/
def handleToggleRecording (s : AppState) (o : Except String Unit) : AppState :=
  if !s.isRecording then
    let s1 : AppState :=
      { s with status := "Recording...", tr := reset s.tr, aiResponse := "" }
    match o with
    | .ok _ => { s1 with isRecording := true }
    | .error e => { s1 with status := "Error: " ++ e }
  else
    match o with
    | .ok _ =>
      { s with tr := stopAndFlush s.tr, status := "Ready.", isRecording := false }
    | .error e => { s with status := "Error: " ++ e }

/-- handleAskGemini (App.jsx lines 142-160), with o the outcome of the
call_gemini_api invoke. A falsy (empty) prompt returns immediately. On
success the response is stored in aiResponse; on failure the error message
is stored in aiResponse; both branches set activeTab to ai, status to
Ready. and open the widget. -/
def handleAskGemini (s : AppState) (prompt : String) (o : Except String String) : AppState :=
  if prompt = "" then s
  else
    match o with
    | .ok resp =>
      { s with aiResponse := resp, activeTab := "ai", status := "Ready.", widgetOpen := true }
    | .error e =>
      { s with aiResponse := "Error: " ++ e, activeTab := "ai", status := "Ready.",
               widgetOpen := true }

/-- handleToggleClickThrough (App.jsx lines 180-189), with o the outcome of
the toggle_clickthrough invoke. On success clickThrough becomes the negated
value and status announces it; on failure the catch block only logs to the
console, so the state is returned unchanged. -/
def handleToggleClickThrough (s : AppState) (o : Except String Unit) : AppState :=
  let newState := !s.clickThrough
  match o with
  | .ok _ =>
    { s with clickThrough := newState,
             status := if newState then "Window is click-through." else "Window is interactive." }
  | .error _ => s

/-- startDragWithClickThroughHandling (App.jsx lines 195-215), with o the
outcome of the toggle_clickthrough (disable) invoke. The previous
clickThrough value is memoised first; if the window was click-through the
backend is asked to disable it, and on success clickThrough becomes false.
A failure is caught and only logged. The source never declares
prevClickThroughRef, so the memo cell the body assigns to is supplied here
as the prevClickThrough field. -/
def startDragWithClickThroughHandling (s : AppState) (o : Except String Unit) : AppState :=
  let s1 : AppState := { s with prevClickThrough := some s.clickThrough }
  if s.clickThrough then
    match o with
    | .ok _ => { s1 with clickThrough := false, status := "Window is interactive." }
    | .error _ => s1
  else s1

/-- stopDragRestoreClickThrough (App.jsx lines 218-231), with o the outcome
of the toggle_clickthrough (re-enable) invoke. If the memoised value is
truthy (some true) the backend is asked to re-enable click-through, and on
success clickThrough becomes true; a failure is caught and only logged. The
finally block clears the memo cell in every case. -/
def stopDragRestoreClickThrough (s : AppState) (o : Except String Unit) : AppState :=
  let s1 : AppState :=
    if s.prevClickThrough = some true then
      match o with
      | .ok _ => { s with clickThrough := true, status := "Window is click-through." }
      | .error _ => s
    else s
  { s1 with prevClickThrough := none }

/-- The new_transcription event at component level. -/
def onNewTranscriptionEvent (s : AppState) (text : String) : AppState :=
  { s with tr := onInterim s.tr text }

/-- The pause-timeout callback at component level. -/
def onPauseTimerFire (s : AppState) : AppState :=
  { s with tr := debounceFire s.tr }

/-- An idle component state: not recording, empty transcript, no pending
timer, ready status, click-through on, transcript tab, widget open. -/
def initialAppState : AppState :=
  { isRecording := false, tr := { finalized := [], inProgress := "", pending := none },
    aiResponse := "", status := "Ready.", clickThrough := true, prevClickThrough := none,
    activeTab := "transcript", widgetOpen := true }

/-- Appending a final element under join: joining l ++ [x] equals joining l,
a newline, then x, provided l is non-empty. -/
theorem joinWithNewline_append_last (l : List String) (x : String) (h : l ≠ []) :
    joinWithNewline (l ++ [x]) = joinWithNewline l ++ "\n" ++ x := by
  induction l with
  | nil => exact absurd rfl h
  | cons a t ih =>
    cases t with
    | nil => rfl
    | cons b t' =>
      have hbt : b :: t' ≠ [] := by simp
      calc joinWithNewline ((a :: b :: t') ++ [x])
          = a ++ "\n" ++ joinWithNewline ((b :: t') ++ [x]) := rfl
        _ = a ++ "\n" ++ (joinWithNewline (b :: t') ++ "\n" ++ x) := by rw [ih hbt]
        _ = joinWithNewline (a :: b :: t') ++ "\n" ++ x := by
            show _ = a ++ "\n" ++ joinWithNewline (b :: t') ++ "\n" ++ x
            simp [String.append_assoc]

/-- C1: refuted cancellation on stop. The claim states that stopping
recording cancels any outstanding debounce task before the flush, so that
no late-firing debounce callback can append the same text a second time.
On the code, starting a session, receiving the interim text hello and then
stopping (all backend calls succeeding) flushes hello but leaves the timer
pending with the same captured text, and its subsequent fire appends hello
a second time. -/
theorem C1_stop_leaves_timer_pending :
    (handleToggleRecording (onNewTranscriptionEvent
        (handleToggleRecording initialAppState (.ok ())) "hello") (.ok ())).tr
      = { finalized := ["hello"], inProgress := "", pending := some "hello" } ∧
    (onPauseTimerFire (handleToggleRecording (onNewTranscriptionEvent
        (handleToggleRecording initialAppState (.ok ())) "hello") (.ok ()))).tr.finalized
      = ["hello", "hello"] := by decide

/-- C2: refuted cancellation on start. The claim states that after a
session start no debounce task is pending and a timer from the previous
session can never fire into the new one. On the code, the start branch
clears the transcript states but never clears the timeout, so after
start, interim hello, stop, start the timer of the first session is still
pending and its fire injects hello into the fresh session. -/
theorem C2_start_leaves_timer_pending :
    (handleToggleRecording (handleToggleRecording (onNewTranscriptionEvent
        (handleToggleRecording initialAppState (.ok ())) "hello") (.ok ())) (.ok ())).tr
      = { finalized := [], inProgress := "", pending := some "hello" } ∧
    (onPauseTimerFire (handleToggleRecording (handleToggleRecording (onNewTranscriptionEvent
        (handleToggleRecording initialAppState (.ok ())) "hello") (.ok ())) (.ok ()))).tr.finalized
      = ["hello"] := by decide

/-- C3 counterexample: the fire of the pause timer does not check that the
captured text is still the current inProgress value. In the state reached
by an interim a followed by the stop flush, the pending captured text a
differs from the current inProgress (now empty), yet the fire appends a
again. -/
theorem C3_fires_on_stale_capture :
    (stopAndFlush (onInterim { finalized := [], inProgress := "", pending := none } "a")).pending
      = some "a" ∧
    (stopAndFlush (onInterim { finalized := [], inProgress := "", pending := none } "a")).inProgress
      ≠ "a" ∧
    (debounceFire (stopAndFlush
        (onInterim { finalized := [], inProgress := "", pending := none } "a"))).finalized
      = ["a", "a"] := by decide

/-- C3 amended: when the timer elapses uncancelled, its callback appends
the text captured at schedule time exactly when that text is non-empty
(only non-emptiness is checked, not that it is still the current
inProgress) and then clears inProgress and consumes the task; hence an
onInterim followed by no further event within the pause window moves the
text into finalized exactly once, a second elapse being a no-op. -/
theorem C3_amended_fire_commits_once (s : TranscriptState) (text : String) (h : text ≠ "") :
    (debounceFire (onInterim s text)).finalized = s.finalized ++ [text] ∧
    (debounceFire (onInterim s text)).inProgress = "" ∧
    debounceFire (debounceFire (onInterim s text)) = debounceFire (onInterim s text) := by
  simp [onInterim, debounceFire, h]

/-- C3 amended, witnessed at the empty state and the text hi. -/
theorem C3_amended_witness :
    (debounceFire (onInterim { finalized := [], inProgress := "", pending := none } "hi")).finalized
      = [] ++ ["hi"] ∧
    (debounceFire (onInterim { finalized := [], inProgress := "", pending := none } "hi")).inProgress
      = "" ∧
    debounceFire (debounceFire (onInterim { finalized := [], inProgress := "", pending := none } "hi"))
      = debounceFire (onInterim { finalized := [], inProgress := "", pending := none } "hi") :=
  C3_amended_fire_commits_once { finalized := [], inProgress := "", pending := none } "hi" (by decide)

/-- C4: onFinal with non-empty text appends exactly that one entry to
finalized, clears inProgress and cancels the pending task, from any
assembler state; in the resulting state a debounce fire is a no-op, so the
pending debounce cannot also commit the utterance. -/
theorem C4_onFinal_commits_once (s : TranscriptState) (text : String) (h : text ≠ "") :
    onFinal s text
      = { finalized := s.finalized ++ [text], inProgress := "", pending := none } ∧
    debounceFire (onFinal s text) = onFinal s text := by
  simp [onFinal, debounceFire, h]

/-- C4, witnessed at a state with a pending task and the text done. -/
theorem C4_witness :
    onFinal { finalized := ["x"], inProgress := "y", pending := some "y" } "done"
      = { finalized := ["x"] ++ ["done"], inProgress := "", pending := none } ∧
    debounceFire (onFinal { finalized := ["x"], inProgress := "y", pending := some "y" } "done")
      = onFinal { finalized := ["x"], inProgress := "y", pending := some "y" } "done" :=
  C4_onFinal_commits_once { finalized := ["x"], inProgress := "y", pending := some "y" } "done"
    (by decide)

/-- C5 counterexample: with finalized equal to the single line a and an
empty inProgress, the displayed transcript is the two characters a newline,
not the bare joined finalized lines a: the empty trailing line is not
omitted by the code. -/
theorem C5_empty_trailing_line_not_omitted :
    transcript { finalized := ["a"], inProgress := "", pending := none } = "a" ++ "\n" ∧
    transcript { finalized := ["a"], inProgress := "", pending := none }
      ≠ joinWithNewline ["a"] := by decide

/-- C5 amended: the displayed transcript is always the join of finalized
with inProgress appended as one trailing line; when finalized is empty it
equals inProgress, and when finalized is non-empty it equals the joined
finalized lines followed by a newline and then inProgress - in particular
an empty inProgress leaves a trailing empty line rather than being
omitted. -/
theorem C5_amended_render (s : TranscriptState) :
    (s.finalized = [] → transcript s = s.inProgress) ∧
    (s.finalized ≠ [] →
      transcript s = joinWithNewline s.finalized ++ "\n" ++ s.inProgress) := by
  constructor
  · intro h
    simp [transcript, h, joinWithNewline]
  · intro h
    simp [transcript, joinWithNewline_append_last s.finalized s.inProgress h]

/-- C5 amended, witnessed at two finalized lines and inProgress c. -/
theorem C5_amended_witness :
    transcript { finalized := ["a", "b"], inProgress := "c", pending := none }
      = joinWithNewline ["a", "b"] ++ "\n" ++ "c" :=
  (C5_amended_render { finalized := ["a", "b"], inProgress := "c", pending := none }).2
    (by decide)

/-- C6 counterexample: empty event payloads are not ignored. In the state
reached by an interim hello, an empty interim payload changes the state
(it overwrites inProgress with the empty string and reschedules the timer
with an empty capture), and an empty final payload changes it too (it
clears inProgress and cancels the timer). -/
theorem C6_empty_payload_mutates_state :
    onInterim (onInterim { finalized := [], inProgress := "", pending := none } "hello") ""
      ≠ onInterim { finalized := [], inProgress := "", pending := none } "hello" ∧
    onFinal (onInterim { finalized := [], inProgress := "", pending := none } "hello") ""
      ≠ onInterim { finalized := [], inProgress := "", pending := none } "hello" := by decide

/-- C6 amended: an empty payload never appends to finalized, but it does
advance the state: an empty interim sets inProgress to the empty string and
schedules a timer capturing empty text, an empty final clears inProgress
and cancels the timer, and the fire of a timer with empty captured text
only consumes the task. -/
theorem C6_amended_empty_payloads (s : TranscriptState) :
    ((onInterim s "").finalized = s.finalized ∧
      onInterim s "" = { finalized := s.finalized, inProgress := "", pending := some "" }) ∧
    ((onFinal s "").finalized = s.finalized ∧
      onFinal s "" = { finalized := s.finalized, inProgress := "", pending := none }) ∧
    (s.pending = some "" →
      debounceFire s
        = { finalized := s.finalized, inProgress := s.inProgress, pending := none }) := by
  refine ⟨⟨rfl, rfl⟩, ⟨by simp [onFinal], by simp [onFinal]⟩, ?_⟩
  intro h
  simp [debounceFire, h]

/-- C6 amended, witnessed at a state whose pending capture is empty. -/
theorem C6_amended_witness :
    debounceFire { finalized := ["x"], inProgress := "y", pending := some "" }
      = { finalized := ["x"], inProgress := "y", pending := none } :=
  (C6_amended_empty_payloads { finalized := ["x"], inProgress := "y", pending := some "" }).2.2
    rfl

/-- C7 counterexample: a failed click-through toggle is not reported via
the user-visible status string. From the idle state, a rejected
toggle_clickthrough invoke leaves the whole state, status included,
unchanged at Ready. - the failure is only logged to the console. -/
theorem C7_toggle_failure_unreported :
    handleToggleClickThrough initialAppState (.error "boom") = initialAppState ∧
    (handleToggleClickThrough initialAppState (.error "boom")).status = "Ready." := by decide

/-- C7 amended: no handler retries, and each aborts on failure, but the
channels differ: a click-through toggle failure leaves the state, status
included, unchanged (console log only); a start failure reports via status
yet leaves the transcript and AI panel already cleared rather than rolled
back, while a stop failure changes only status; an AI-query failure is
reported via the aiResponse panel with status reset to Ready. -/
theorem C7_amended_failure_handling (s : AppState) (e : String) (prompt : String)
    (hp : prompt ≠ "") :
    handleToggleClickThrough s (.error e) = s ∧
    handleToggleRecording s (.error e)
      = (if s.isRecording then { s with status := "Error: " ++ e }
         else { s with tr := reset s.tr, aiResponse := "", status := "Error: " ++ e }) ∧
    handleAskGemini s prompt (.error e)
      = { s with aiResponse := "Error: " ++ e, activeTab := "ai", status := "Ready.",
                 widgetOpen := true } := by
  refine ⟨rfl, ?_, by simp [handleAskGemini, hp]⟩
  cases hr : s.isRecording <;> simp [handleToggleRecording, hr]

/-- C7 amended, witnessed at the idle state with a concrete error and
prompt. -/
theorem C7_amended_witness :
    handleToggleClickThrough initialAppState (.error "oops") = initialAppState ∧
    handleToggleRecording initialAppState (.error "oops")
      = (if initialAppState.isRecording
         then { initialAppState with status := "Error: " ++ "oops" }
         else { initialAppState with
                  tr := reset initialAppState.tr, aiResponse := "",
                  status := "Error: " ++ "oops" }) ∧
    handleAskGemini initialAppState "question" (.error "oops")
      = { initialAppState with
            aiResponse := "Error: " ++ "oops", activeTab := "ai",
            status := "Ready.", widgetOpen := true } :=
  C7_amended_failure_handling initialAppState "oops" "question" (by decide)

/-- C8: every assembler operation preserves the invariant that finalized
contains no empty string, and the in-session operations (interim, final,
debounce fire, stop flush) only ever extend finalized on the right, never
removing or reordering existing entries. -/
theorem C8_finalized_invariants (s : TranscriptState) (text : String)
    (h : "" ∉ s.finalized) :
    ("" ∉ (onInterim s text).finalized ∧ "" ∉ (onFinal s text).finalized ∧
      "" ∉ (debounceFire s).finalized ∧ "" ∉ (reset s).finalized ∧
      "" ∉ (stopAndFlush s).finalized) ∧
    ((∃ t, (onInterim s text).finalized = s.finalized ++ t) ∧
      (∃ t, (onFinal s text).finalized = s.finalized ++ t) ∧
      (∃ t, (debounceFire s).finalized = s.finalized ++ t) ∧
      (∃ t, (stopAndFlush s).finalized = s.finalized ++ t)) := by
  constructor
  · refine ⟨h, ?_, ?_, by simp [reset], ?_⟩
    · rcases eq_or_ne text "" with ht | ht
      · simpa [onFinal, ht] using h
      · simp [onFinal, ht]
        exact ⟨h, fun hx => ht hx.symm⟩
    · cases hp : s.pending with
      | none => simpa [debounceFire, hp] using h
      | some t =>
        rcases eq_or_ne t "" with ht | ht
        · simpa [debounceFire, hp, ht] using h
        · simp [debounceFire, hp, ht]
          exact ⟨h, fun hx => ht hx.symm⟩
    · rcases eq_or_ne s.inProgress "" with hi | hi
      · simpa [stopAndFlush, hi] using h
      · simp [stopAndFlush, hi]
        exact ⟨h, fun hx => hi hx.symm⟩
  · refine ⟨⟨[], by simp [onInterim]⟩, ?_, ?_, ?_⟩
    · rcases eq_or_ne text "" with ht | ht
      · exact ⟨[], by simp [onFinal, ht]⟩
      · exact ⟨[text], by simp [onFinal, ht]⟩
    · cases hp : s.pending with
      | none => exact ⟨[], by simp [debounceFire, hp]⟩
      | some t =>
        rcases eq_or_ne t "" with ht | ht
        · exact ⟨[], by simp [debounceFire, hp, ht]⟩
        · exact ⟨[t], by simp [debounceFire, hp, ht]⟩
    · rcases eq_or_ne s.inProgress "" with hi | hi
      · exact ⟨[], by simp [stopAndFlush, hi]⟩
      · exact ⟨[s.inProgress], by simp [stopAndFlush, hi]⟩

/-- C8, witnessed at a concrete state with non-empty inProgress. -/
theorem C8_witness :
    ("" : String) ∉ (["x"] : List String) ∧
    ("" ∉ (stopAndFlush { finalized := ["x"], inProgress := "y", pending := some "z" }).finalized ∧
      ∃ t, (stopAndFlush { finalized := ["x"], inProgress := "y", pending := some "z" }).finalized
        = ["x"] ++ t) :=
  ⟨by decide,
    (C8_finalized_invariants { finalized := ["x"], inProgress := "y", pending := some "z" } "w"
      (by decide)).1.2.2.2.2,
    (C8_finalized_invariants { finalized := ["x"], inProgress := "y", pending := some "z" } "w"
      (by decide)).2.2.2.2⟩

/-- C9: the drag handler bodies as written satisfy the round trip - a
begin-drag followed by an end-drag with successful backend calls restores
clickThrough to its pre-drag value for both pre-drag values, and the
end-drag clears the memo cell in every case, whatever the outcomes of the
two backend calls. The running program never reaches this behaviour: the
memo cell prevClickThroughRef the bodies use is declared nowhere in the
source, so every gesture throws a ReferenceError instead. -/
theorem C9_drag_round_trip_model (s : AppState) :
    (stopDragRestoreClickThrough (startDragWithClickThroughHandling s (.ok ())) (.ok ())).clickThrough
      = s.clickThrough ∧
    (∀ o1 o2 : Except String Unit,
      (stopDragRestoreClickThrough (startDragWithClickThroughHandling s o1) o2).prevClickThrough
        = none) := by
  constructor
  · cases hc : s.clickThrough <;>
      simp [startDragWithClickThroughHandling, stopDragRestoreClickThrough, hc]
  · intro o1 o2
    rfl

/-- C10: the aiResponse panel is cleared exactly by the start branch of
handleToggleRecording and untouched by the stop branch, whatever the
backend outcome. -/
theorem C10_start_clears_aiResponse (s : AppState) (o : Except String Unit) :
    (handleToggleRecording s o).aiResponse
      = if s.isRecording then s.aiResponse else "" := by
  cases hr : s.isRecording <;> cases o <;> simp [handleToggleRecording, hr]
